import Mathlib

/-!
Verification of the GXPTemplate launch / path-resolution / status-validation
subsystem (`src/GXPTemplate`): a shallow embedding of `Util.cpp`, `OsUtil.cpp`
and `GXPTemplate.cpp` in Lean, with theorems checking the design document
against it.

Conventions of the embedding:
* C++ strings and printed text are `List Char`.
* The shared `cout` formatting state (basefield flags, fill character, field
  width) plus the accumulated output text form a `StreamState` threaded
  explicitly.
* OS-provided facts (the `SOCETGXPEXE` environment variable, the result of
  `CreateProcess`, the last-error code, the current working directory) are
  inputs to the embedded functions, one `OsWorld` record or an `Option`
  argument per oracle.
* The GSIT status type and its success / failure macros belong to the external
  GXP API (they are not part of this repository); they are modelled from the
  design document: a two-valued transport status, and an application error
  code whose zero value indicates success, with `GSIT_FAILED` the negation of
  `GSIT_SUCCEEDED`.
-/

/-! ## The `cout` formatting-state model -/

/-- The `ios_base::dec` basefield flag bit. -/
def decBit : Nat := 1

/-- The `ios_base::oct` basefield flag bit. -/
def octBit : Nat := 2

/-- The `ios_base::hex` basefield flag bit. -/
def hexBit : Nat := 4

/-- The observable state of `std::cout` used by `Util::checkStatus`:
its basefield flag bits, fill character, field width, and the text written
so far. -/
structure StreamState where
  basefield : Nat
  fill : Char
  width : Int
  out : List Char
deriving DecidableEq

/-- Right-justified padding of a formatted insertion: when the text is
shorter than the field width, fill characters are prepended. -/
def padAux (w : Int) (f : Char) (t : List Char) : List Char :=
  if (t.length : Int) < w then List.replicate (w - (t.length : Int)).toNat f ++ t else t

/-- A formatted insertion (`operator<<` on a string or number): the text is
padded to the current width with the current fill, appended to the output,
and the width resets to zero. -/
def putFormatted (s : StreamState) (t : List Char) : StreamState :=
  { s with out := s.out ++ padAux s.width s.fill t, width := 0 }

/-- Embedding of `std::endl`: writes a newline unformatted (no padding, width untouched). -/
def putEndl (s : StreamState) : StreamState :=
  { s with out := s.out ++ ['\n'] }

/-- Embedding of `cout << hex`, i.e. `setf(ios_base::hex, ios_base::basefield)`: the whole
basefield is cleared and the hex bit set. -/
def setHex (s : StreamState) : StreamState :=
  { s with basefield := hexBit }

/-- Embedding of `cout << resetiosflags(ios_base::hex)`: only the hex bit is cleared;
other basefield bits are left alone. -/
def resetHex (s : StreamState) : StreamState :=
  { s with basefield := s.basefield &&& (decBit ||| octBit) }

/-- Embedding of `setw(n)`. -/
def setWidth (s : StreamState) (n : Int) : StreamState :=
  { s with width := n }

/-- Embedding of `setfill(c)`. -/
def setFill (s : StreamState) (c : Char) : StreamState :=
  { s with fill := c }

/-- The hexadecimal digits of a C++ `long` value as `cout << hex` prints
them: the 32-bit unsigned representation, lowercase, no leading zeros. -/
def hexDigits (c : Int) : List Char :=
  Nat.toDigits 16 ((c % (2 ^ 32 : Int)).toNat)

/-- The decimal rendering of a C++ `long` value as `cout` prints it in the
default (decimal) base. -/
def decDigits (c : Int) : List Char :=
  if c < 0 then '-' :: Nat.toDigits 10 (-c).toNat else Nat.toDigits 10 c.toNat

/-- A numeric formatted insertion: the value is rendered according to the
current basefield flags, then padded like any formatted insertion. -/
def renderInt (basefield : Nat) (c : Int) : List Char :=
  if basefield &&& hexBit ≠ 0 then hexDigits c
  else if basefield &&& octBit ≠ 0 then Nat.toDigits 8 ((c % (2 ^ 32 : Int)).toNat)
  else decDigits c

/-- Embedding of `cout << n` for an integer `n`. -/
def putInt (s : StreamState) (c : Int) : StreamState :=
  putFormatted s (renderInt s.basefield c)

/-! ## The external GXP API surface, modelled from the design document -/

/-- Modelled from the spec: the transport-level status of the external GXP
API (`GSIT_STATUS`), a two-valued success / failure enumeration. The real
type lives in the vendor headers outside this repository. -/
inductive GSIT_STATUS where
  | success
  | failure
deriving DecidableEq

/-- Modelled from the spec: the `GSIT_SUCCEEDED` macro on a transport
status. -/
def GSIT_SUCCEEDED : GSIT_STATUS → Bool
  | GSIT_STATUS.success => true
  | GSIT_STATUS.failure => false

/-- Modelled from the spec: the `GSIT_FAILED` macro on a transport status,
the negation of `GSIT_SUCCEEDED`. -/
def GSIT_FAILED (s : GSIT_STATUS) : Bool :=
  !GSIT_SUCCEEDED s

/-- Modelled from the spec: the numeric value of a transport status as the
cast `(long)comm_status` reads it. -/
def gsitStatusCode : GSIT_STATUS → Int
  | GSIT_STATUS.success => 0
  | GSIT_STATUS.failure => 1

/-- Modelled from the spec: `GSIT_SUCCEEDED` on an application error code —
the zero code indicates success, any other code indicates failure. -/
def gsitCodeSucceeded (c : Int) : Bool :=
  c == 0

/-- Modelled from the spec: `GSIT_FAILED` on an application error code. -/
def gsitCodeFailed (c : Int) : Bool :=
  !gsitCodeSucceeded c

/-- The application-level status object (`GXP_API::ApiStatus`): an error code
(`getErrorCode`) and an error message (`getErrorString` / `ApiString`, whose
`getLength` is the message length and `getText` the message itself). -/
structure ApiStatus where
  errorCode : Int
  errorMessage : List Char
deriving DecidableEq

/-! ## Util::checkStatus (`src/GXPTemplate/Util.cpp`) -/

/-- The literal failure banner of `Util::checkStatus`. -/
def bannerText : List Char := " >> ERROR <<".data

/-- The prefix of the transport-status line before the hex value. -/
def commErrText : List Char := "Communication Error: ".data

/-- The `0x` marker preceding each hex-rendered code. -/
def hexPrefixText : List Char := "0x".data

/-- The prefix of both application-error lines. -/
def gxpErrText : List Char := "GXP Error: ".data

/-- An 8-digit zero-padded hexadecimal rendering: the hex digits padded on
the left with `0` to width 8 (exactly what `hex << setw(8) << setfill('0')`
produces for a value). -/
def hex8 (c : Int) : List Char :=
  padAux 8 '0' (hexDigits c)

/-- Shallow embedding of `Util::checkStatus` (Util.cpp lines 30-68): given
the transport status, the application status object and the current `cout`
state, it returns the boolean result and the `cout` state after the call.
The body follows the source line by line: capture width and fill; on
`GSIT_FAILED(comm) || GSIT_FAILED(errorCode)` print the banner, the two
codes in hex (switching the basefield to hex and resetting the hex flag
after each), the error message when non-empty, and two blank lines, then
restore fill and width; finally return
`GSIT_SUCCEEDED(comm) && GSIT_SUCCEEDED(errorCode)`. -/
def checkStatus (comm : GSIT_STATUS) (gxp : ApiStatus) (s0 : StreamState) :
    Bool × StreamState :=
  let error_string := gxp.errorMessage
  let sEnd :=
    if GSIT_FAILED comm || gsitCodeFailed gxp.errorCode then
      let ios_width := s0.width
      let ios_fill := s0.fill
      let s1 := putEndl (putFormatted s0 bannerText)
      let s2 := putFormatted s1 (commErrText ++ hexPrefixText)
      let s3 := putEndl (putInt (setFill (setWidth (setHex s2) 8) '0') (gsitStatusCode comm))
      let s4 := resetHex s3
      let s5 := putFormatted s4 (gxpErrText ++ hexPrefixText)
      let s6 := putEndl (putInt (setFill (setWidth (setHex s5) 8) '0') gxp.errorCode)
      let s7 := resetHex s6
      let s8 :=
        if error_string.length ≠ 0 then
          putEndl (putFormatted (putFormatted s7 gxpErrText) error_string)
        else s7
      let s9 := putEndl (putEndl s8)
      { s9 with fill := ios_fill, width := ios_width }
    else s0
  (GSIT_SUCCEEDED comm && gsitCodeSucceeded gxp.errorCode, sEnd)

/-- The diagnostic block `Util::checkStatus` appends to the output on the
failure path, as a function of the two statuses and of the caller's width and
fill (which pad the banner line). -/
def diagBlock (comm : GSIT_STATUS) (gxp : ApiStatus) (w : Int) (f : Char) : List Char :=
  padAux w f bannerText ++ ['\n'] ++
  commErrText ++ (hexPrefixText ++ hex8 (gsitStatusCode comm)) ++ ['\n'] ++
  gxpErrText ++ (hexPrefixText ++ hex8 gxp.errorCode) ++ ['\n'] ++
  (if gxp.errorMessage.length ≠ 0 then gxpErrText ++ gxp.errorMessage ++ ['\n'] else []) ++
  ['\n', '\n']

/-! ## OsUtil (`src/GXPTemplate/OsUtil.cpp`) -/

/-- The operating-system facts the `OsUtil` launch functions consult: the
value of `getenv("SOCETGXPEXE")`, whether `CreateProcess` succeeds on a given
executable path, the process identifier `CreateProcess` writes into
`PROCESS_INFORMATION`, and `GetLastError()`. -/
structure OsWorld where
  socetgxpexe : Option (List Char)
  createProcessOk : List Char → Bool
  osPid : Int
  lastError : Int

/-- What a launch call produced: the returned `pid_t`, the text printed to
`cout`, and the executable paths passed to `CreateProcess` (empty when no
process creation was attempted). -/
structure LaunchResult where
  pid : Int
  out : List Char
  attempts : List (List Char)
deriving DecidableEq

/-- The `0 = failure` sentinel convention on a launch result (the spec's
`LaunchOutcome.succeeded`). -/
def succeeded (r : LaunchResult) : Bool :=
  r.pid != 0

/-- The diagnostic line `OsUtil::StartApplication` prints when
`CreateProcess` fails. -/
def reportedErrText : List Char := "REPORTED ERROR: ".data

/-- Shallow embedding of `OsUtil::StartApplication` (OsUtil.cpp lines
36-73): a null or empty argument returns `false` (which converts to the
`pid_t` 0) with no process creation; otherwise `.exe` is appended and
`CreateProcess` is called on the result — on success the constant 10 is
returned, on failure the last-error code is printed and 0 returned. -/
def StartApplication (application : List Char) (w : OsWorld) : LaunchResult :=
  if application.length = 0 then
    { pid := 0, out := [], attempts := [] }
  else
    let exe := application ++ ".exe".data
    if w.createProcessOk exe then
      { pid := 10, out := [], attempts := [exe] }
    else
      { pid := 0, out := reportedErrText ++ decDigits w.lastError ++ ['\n'],
        attempts := [exe] }

/-- The message `OsUtil::StartGxpApplication` prints when the environment
variable is absent. -/
def socetUnsetText : List Char := "SOCETGXPEXE is not set.".data

/-- The fixed executable base name appended to the installation directory. -/
def socetBaseName : List Char := "\\SocetGxp".data

/-- Shallow embedding of `OsUtil::StartGxpApplication` (OsUtil.cpp lines
77-102): read `SOCETGXPEXE`; when unset, print the message and return 0;
otherwise append `\SocetGxp` and delegate to `StartApplication`. -/
def StartGxpApplication (w : OsWorld) : LaunchResult :=
  match w.socetgxpexe with
  | none => { pid := 0, out := socetUnsetText ++ ['\n'], attempts := [] }
  | some path => StartApplication (path ++ socetBaseName) w

/-- The drive-letter test of `OsUtil::NormalizeLocalPath` (OsUtil.cpp lines
130-134): `drive_set` is true exactly when the path length exceeds 3 and the
characters at positions 1 and 2 are `:` and `\`. -/
def driveSet (p : List Char) : Bool :=
  if 3 < p.length then
    match p with
    | _ :: c1 :: c2 :: _ => c1 == ':' && c2 == '\\'
    | _ => false
  else false

/-- Shallow embedding of `OsUtil::NormalizeLocalPath` (OsUtil.cpp lines
117-148), with the `_getcwd` oracle as an `Option` argument (`none` models a
failed retrieval, `some c` a successful one returning `c`): an empty path
returns the empty string; a path with the drive prefix is returned
unchanged; otherwise the working directory, a backslash and the path are
concatenated, the empty string being returned when `_getcwd` fails. -/
def NormalizeLocalPath (path : List Char) (cwd : Option (List Char)) : List Char :=
  if path.length = 0 then []
  else if driveSet path then path
  else
    match cwd with
    | none => []
    | some c => c ++ ['\\'] ++ path

/-! ## The driver (`src/GXPTemplate/GXPTemplate.cpp`) -/

/-- The externally observable calls the driver can make: the API lifecycle
calls, the session operations, and the calls the design document claims but
which would come from `Util` / `OsUtil` (status validation, application
launch, environment read). -/
inductive DriverEvent where
  | initApi
  | connectEv
  | disconnectEv
  | uninitApi
  | validateEv
  | launchEv
  | readEnvEv
deriving DecidableEq

/-- Shallow embedding of `exec` (GXPTemplate.cpp lines 27-39) as its call
trace, parameterised by the transport status `gxpConnect` returns (which the
source assigns to `comm_status` and never reads): it calls `gxpConnect` and
then, unconditionally, `gxpDisconnect`. -/
def execTrace (connectResult : GSIT_STATUS) : List DriverEvent :=
  match connectResult with
  | _ => [DriverEvent.connectEv, DriverEvent.disconnectEv]

/-- Shallow embedding of `_tmain` (GXPTemplate.cpp lines 16-25) as its call
trace: `InitializeApi`, then `exec`, then `UninitializeApi`. -/
def tmainTrace (connectResult : GSIT_STATUS) : List DriverEvent :=
  [DriverEvent.initApi] ++ execTrace connectResult ++ [DriverEvent.uninitApi]

/-! ## Helper lemmas -/

/-- Padding at a non-positive width is the identity (the width has already
been consumed by an earlier insertion). -/
theorem padAux_nonpos (w : Int) (f : Char) (t : List Char) (h : w ≤ 0) :
    padAux w f t = t := by
  unfold padAux
  rw [if_neg]
  omega

/-- The condition of the diagnostic branch is the negation of the returned
success value. -/
theorem gsit_fail_iff (comm : GSIT_STATUS) (c : Int) :
    (GSIT_FAILED comm || gsitCodeFailed c) = !(GSIT_SUCCEEDED comm && gsitCodeSucceeded c) := by
  cases comm <;> simp [GSIT_FAILED, GSIT_SUCCEEDED, gsitCodeFailed]

/-- The output text `checkStatus` leaves behind: unchanged on the success
path, the input followed by the diagnostic block on the failure path. -/
theorem checkStatus_out_eq (comm : GSIT_STATUS) (gxp : ApiStatus) (s : StreamState) :
    (checkStatus comm gxp s).2.out =
      if GSIT_FAILED comm || gsitCodeFailed gxp.errorCode then
        s.out ++ diagBlock comm gxp s.width s.fill
      else s.out := by
  by_cases h : (GSIT_FAILED comm || gsitCodeFailed gxp.errorCode) = true
  · rw [if_pos h]
    by_cases hm : gxp.errorMessage.length ≠ 0
    · simp [checkStatus, h, hm, diagBlock, putFormatted, putEndl, putInt, setHex, setFill,
        setWidth, resetHex, renderInt, hexBit, hex8, padAux_nonpos, List.append_assoc]
    · simp [checkStatus, h, hm, diagBlock, putFormatted, putEndl, putInt, setHex, setFill,
        setWidth, resetHex, renderInt, hexBit, hex8, padAux_nonpos, List.append_assoc]
  · rw [if_neg h]
    simp [checkStatus, Bool.not_eq_true] at h ⊢
    simp [h]

/-- The diagnostic block is never empty (it ends in two blank lines). -/
theorem diagBlock_ne_nil (comm : GSIT_STATUS) (gxp : ApiStatus) (w : Int) (f : Char) :
    diagBlock comm gxp w f ≠ [] := by
  intro h
  have := congrArg List.length h
  simp [diagBlock] at this

/-- A list equal to `p ++ m ++ q` contains `m` as a contiguous part. -/
theorem part_of_split {l p q m : List Char} (h : l = p ++ m ++ q) : m <:+: l :=
  ⟨p, q, h.symm⟩

/-! ## The claims -/

/-- C1: `Util::checkStatus` returns true exactly when the transport status
indicates success and the application error code indicates success; a
successful transport with a failed application code yields false, and a
failed transport with a successful application code yields false. -/
theorem checkStatus_true_iff (comm : GSIT_STATUS) (gxp : ApiStatus) (s : StreamState) :
    ((checkStatus comm gxp s).1 = true ↔
      GSIT_SUCCEEDED comm = true ∧ gsitCodeSucceeded gxp.errorCode = true) ∧
    (GSIT_SUCCEEDED comm = true ∧ gsitCodeFailed gxp.errorCode = true →
      (checkStatus comm gxp s).1 = false) ∧
    (GSIT_FAILED comm = true ∧ gsitCodeSucceeded gxp.errorCode = true →
      (checkStatus comm gxp s).1 = false) := by
  cases comm <;>
    simp [checkStatus, GSIT_SUCCEEDED, GSIT_FAILED, gsitCodeFailed, gsitCodeSucceeded]

/-- C2 counterexample: with the default decimal basefield flag set before the
call, a failing `checkStatus` call leaves the basefield flags cleared (the
final `resetiosflags(ios_base::hex)` removes the hex bit but nothing restores
the caller's base), so the numeric base is not bit-identical to its value
before the call. -/
theorem checkStatus_basefield_not_restored :
    ¬ ((checkStatus GSIT_STATUS.failure ⟨0, []⟩
          { basefield := decBit, fill := ' ', width := 0, out := [] }).2.basefield
        = ({ basefield := decBit, fill := ' ', width := 0, out := [] } : StreamState).basefield) := by
  decide

/-- C2 amended: on every exit path of `Util::checkStatus` the fill character
and field width after the call equal their values before the call; the
basefield flags are unchanged when the call returns true (no diagnostic), but
after an emitted diagnostic they are left cleared rather than restored. -/
theorem checkStatus_formatting_state (comm : GSIT_STATUS) (gxp : ApiStatus) (s : StreamState) :
    (checkStatus comm gxp s).2.fill = s.fill ∧
    (checkStatus comm gxp s).2.width = s.width ∧
    (checkStatus comm gxp s).2.basefield =
      (if (checkStatus comm gxp s).1 = true then s.basefield else 0) := by
  have hres : (checkStatus comm gxp s).1 = (GSIT_SUCCEEDED comm && gsitCodeSucceeded gxp.errorCode) := by
    simp [checkStatus]
  have hand : (4 : Nat) &&& 3 = 0 := by decide
  by_cases h : (GSIT_FAILED comm || gsitCodeFailed gxp.errorCode) = true
  · have hfalse2 : (GSIT_SUCCEEDED comm && gsitCodeSucceeded gxp.errorCode) = false := by
      cases hb : (GSIT_SUCCEEDED comm && gsitCodeSucceeded gxp.errorCode)
      · rfl
      · have h3 := gsit_fail_iff comm gxp.errorCode
        rw [h, hb] at h3
        simp at h3
    rw [hres, hfalse2]
    by_cases hm : gxp.errorMessage.length ≠ 0 <;>
      simp [checkStatus, h, hm, putFormatted, putEndl, putInt, setHex, setFill,
        setWidth, resetHex, decBit, octBit, hexBit, hand]
  · have h2 : (GSIT_FAILED comm || gsitCodeFailed gxp.errorCode) = false := by
      simpa using h
    have htrue : (GSIT_SUCCEEDED comm && gsitCodeSucceeded gxp.errorCode) = true := by
      cases hb : (GSIT_SUCCEEDED comm && gsitCodeSucceeded gxp.errorCode)
      · have h3 := gsit_fail_iff comm gxp.errorCode
        rw [h2, hb] at h3
        simp at h3
      · rfl
    rw [hres, htrue]
    simp [checkStatus, h2]

/-- C3 counterexample: in the run of the reference flow with a successful
connect, the driver never calls the status validator — `Util::checkStatus`
does not appear in the call trace of `_tmain`, so the claimed
read-config / launch / validate sequence is not what the driver performs. -/
theorem driver_never_validates :
    DriverEvent.validateEv ∉ tmainTrace GSIT_STATUS.success := by
  decide

/-- C3 amended: in every run of the reference flow the driver performs
exactly the sequence initialize the external API, connect, disconnect,
uninitialize; it never reads the environment configuration, never invokes
the application launcher and never validates a session operation with the
status validator. -/
theorem driver_sequence (r : GSIT_STATUS) :
    tmainTrace r =
      [DriverEvent.initApi, DriverEvent.connectEv, DriverEvent.disconnectEv,
        DriverEvent.uninitApi] ∧
    DriverEvent.validateEv ∉ tmainTrace r ∧
    DriverEvent.launchEv ∉ tmainTrace r ∧
    DriverEvent.readEnvEv ∉ tmainTrace r := by
  cases r <;> exact ⟨rfl, by decide, by decide, by decide⟩

/-- C4: in every run of the driver — whatever transport status the connect
call returns — disconnect is called exactly once, and it comes after the
connect call in the trace, so a failed connect is still followed by
disconnect before the driver terminates. -/
theorem disconnect_follows_connect (r : GSIT_STATUS) :
    (tmainTrace r).count DriverEvent.disconnectEv = 1 ∧
    ∃ l₁ l₂ l₃,
      tmainTrace r =
        l₁ ++ [DriverEvent.connectEv] ++ l₂ ++ [DriverEvent.disconnectEv] ++ l₃ := by
  cases r <;>
    exact ⟨by decide, [DriverEvent.initApi], [], [DriverEvent.uninitApi], rfl⟩

/-- C5: `Util::checkStatus` writes to the output exactly when the overall
result is failure, and in that case the written text contains the transport
status and the application error code each rendered as `0x` followed by
their 8-digit zero-padded hexadecimal value, plus the application error
message text when that message is non-empty; when both layers succeed it
returns true and the output is untouched. -/
theorem checkStatus_diagnostic (comm : GSIT_STATUS) (gxp : ApiStatus) (s : StreamState) :
    ((checkStatus comm gxp s).2.out = s.out ↔ (checkStatus comm gxp s).1 = true) ∧
    ((checkStatus comm gxp s).1 = false →
      (hexPrefixText ++ hex8 (gsitStatusCode comm)) <:+: (checkStatus comm gxp s).2.out ∧
      (hexPrefixText ++ hex8 gxp.errorCode) <:+: (checkStatus comm gxp s).2.out ∧
      (gxp.errorMessage ≠ [] → gxp.errorMessage <:+: (checkStatus comm gxp s).2.out)) := by
  have hres : (checkStatus comm gxp s).1 = (GSIT_SUCCEEDED comm && gsitCodeSucceeded gxp.errorCode) := by
    simp [checkStatus]
  have hout := checkStatus_out_eq comm gxp s
  by_cases h : (GSIT_FAILED comm || gsitCodeFailed gxp.errorCode) = true
  · have hfalse2 : (GSIT_SUCCEEDED comm && gsitCodeSucceeded gxp.errorCode) = false := by
      cases hb : (GSIT_SUCCEEDED comm && gsitCodeSucceeded gxp.errorCode)
      · rfl
      · have h3 := gsit_fail_iff comm gxp.errorCode
        rw [h, hb] at h3
        simp at h3
    rw [if_pos h] at hout
    constructor
    · rw [hout, hres, hfalse2]
      constructor
      · intro hEq
        have hlen := congrArg List.length hEq
        simp [List.length_append] at hlen
        exact (diagBlock_ne_nil comm gxp s.width s.fill hlen).elim
      · intro hEq
        cases hEq
    · intro _
      refine ⟨?_, ?_, ?_⟩
      · refine part_of_split (p := s.out ++ (padAux s.width s.fill bannerText ++ ['\n'] ++ commErrText))
          (q := ['\n'] ++ gxpErrText ++ (hexPrefixText ++ hex8 gxp.errorCode) ++ ['\n'] ++
            (if gxp.errorMessage.length ≠ 0 then gxpErrText ++ gxp.errorMessage ++ ['\n'] else []) ++
            ['\n', '\n']) ?_
        rw [hout]
        simp [diagBlock, List.append_assoc]
      · refine part_of_split (p := s.out ++ (padAux s.width s.fill bannerText ++ ['\n'] ++ commErrText ++
            (hexPrefixText ++ hex8 (gsitStatusCode comm)) ++ ['\n'] ++ gxpErrText))
          (q := ['\n'] ++
            (if gxp.errorMessage.length ≠ 0 then gxpErrText ++ gxp.errorMessage ++ ['\n'] else []) ++
            ['\n', '\n']) ?_
        rw [hout]
        simp [diagBlock, List.append_assoc]
      · intro hmsg
        have hm : gxp.errorMessage.length ≠ 0 := by
          simpa [List.length_eq_zero] using hmsg
        refine part_of_split (p := s.out ++ (padAux s.width s.fill bannerText ++ ['\n'] ++ commErrText ++
            (hexPrefixText ++ hex8 (gsitStatusCode comm)) ++ ['\n'] ++ gxpErrText ++
            (hexPrefixText ++ hex8 gxp.errorCode) ++ ['\n'] ++ gxpErrText))
          (q := ['\n'] ++ ['\n', '\n']) ?_
        rw [hout]
        simp [diagBlock, hm, List.append_assoc]
  · have h2 : (GSIT_FAILED comm || gsitCodeFailed gxp.errorCode) = false := by
      simpa using h
    have htrue : (GSIT_SUCCEEDED comm && gsitCodeSucceeded gxp.errorCode) = true := by
      cases hb : (GSIT_SUCCEEDED comm && gsitCodeSucceeded gxp.errorCode)
      · have h3 := gsit_fail_iff comm gxp.errorCode
        rw [h2, hb] at h3
        simp at h3
      · rfl
    rw [if_neg h] at hout
    refine ⟨by simp [hout, hres, htrue], ?_⟩
    intro hbad
    rw [hres, htrue] at hbad
    cases hbad

/-- C6: for every non-empty path without the recognized absolute-path prefix,
`OsUtil::NormalizeLocalPath` returns the working directory, a backslash and
the path concatenated when the working-directory retrieval succeeds, and the
empty result when it fails. -/
theorem normalize_relative (p : List Char) (c : List Char)
    (h1 : p ≠ []) (h2 : driveSet p = false) :
    NormalizeLocalPath p (some c) = c ++ ['\\'] ++ p ∧
    NormalizeLocalPath p none = [] := by
  have hlen : ¬ p.length = 0 := by
    simpa [List.length_eq_zero] using h1
  constructor <;> simp [NormalizeLocalPath, hlen, h2]

/-- C6 witness: the relative path `foo` with working directory `C:\gxp`
normalizes to `C:\gxp\foo`, and to the empty result when the working
directory cannot be retrieved. -/
theorem normalize_relative_witness :
    NormalizeLocalPath ("foo".data) (some ("C:\\gxp".data)) =
        ("C:\\gxp".data) ++ ['\\'] ++ ("foo".data) ∧
    NormalizeLocalPath ("foo".data) none = [] :=
  normalize_relative ("foo".data) ("C:\\gxp".data) (by decide) (by decide)

/-- C7: every path of length greater than 3 whose character at position 1 is
a colon and at position 2 a backslash is returned unchanged by
`OsUtil::NormalizeLocalPath`, whatever the working-directory oracle says. -/
theorem normalize_absolute (p : List Char) (cwd : Option (List Char))
    (h1 : 3 < p.length) (h2 : p[1]? = some ':') (h3 : p[2]? = some '\\') :
    NormalizeLocalPath p cwd = p := by
  match p, h1 with
  | a :: b :: c :: d :: rest, h1 =>
    simp at h2 h3
    have hd : driveSet (a :: b :: c :: d :: rest) = true := by
      simp [driveSet, h2, h3, h1]
    simp [NormalizeLocalPath, hd]

/-- C7 witness: the absolute path `C:\ab` is returned unchanged even with a
different working directory available. -/
theorem normalize_absolute_witness :
    NormalizeLocalPath ("C:\\ab".data) (some ("D:\\cwd".data)) = "C:\\ab".data :=
  normalize_absolute ("C:\\ab".data) (some ("D:\\cwd".data)) (by decide) (by decide) (by decide)

/-- C8: when `SOCETGXPEXE` is unset, `OsUtil::StartGxpApplication` prints the
message naming the missing variable and returns the failure outcome with
process identifier 0 and no process-creation attempt; when it is set, the
call equals `StartApplication` on the installation directory, a backslash
and the fixed executable base name. -/
theorem startGxp_env (w : OsWorld) :
    (w.socetgxpexe = none →
      StartGxpApplication w =
        { pid := 0, out := socetUnsetText ++ ['\n'], attempts := [] }) ∧
    (∀ p, w.socetgxpexe = some p →
      StartGxpApplication w = StartApplication (p ++ socetBaseName) w) := by
  constructor
  · intro h
    simp [StartGxpApplication, h]
  · intro p h
    simp [StartGxpApplication, h]

/-- C9: `OsUtil::StartApplication` on the empty argument returns the failure
outcome — process identifier 0, nothing printed, no `CreateProcess`
attempt — and the `succeeded` reading of that outcome is false. -/
theorem launch_empty (w : OsWorld) :
    StartApplication [] w = { pid := 0, out := [], attempts := [] } ∧
    succeeded (StartApplication [] w) = false := by
  constructor
  · simp [StartApplication]
  · simp [StartApplication, succeeded]

/-- C10: `OsUtil::StartApplication` returns the constant 10 exactly when the
argument is non-empty and `CreateProcess` succeeds, and 0 otherwise — so its
value is always one of 0 and 10 and never depends on the process identifier
the operating system produced for the spawned child. -/
theorem launch_pid_sentinel (application : List Char) (w : OsWorld) :
    (StartApplication application w).pid =
      (if application ≠ [] ∧ w.createProcessOk (application ++ ".exe".data) = true
        then 10 else 0) ∧
    ((StartApplication application w).pid = 0 ∨ (StartApplication application w).pid = 10) ∧
    (∀ q : Int,
      (StartApplication application { w with osPid := q }).pid =
        (StartApplication application w).pid) := by
  refine ⟨?_, ?_, ?_⟩
  · by_cases h : application.length = 0
    · have hnil : application = [] := List.length_eq_zero.mp h
      simp [StartApplication, h, hnil]
    · have hne : application ≠ [] := by
        simpa [List.length_eq_zero] using h
      by_cases hc : w.createProcessOk (application ++ ".exe".data) = true
      · simp [StartApplication, h, hc, hne]
      · simp [StartApplication, h, hc, hne]
  · by_cases h : application.length = 0
    · simp [StartApplication, h]
    · by_cases hc : w.createProcessOk (application ++ ".exe".data) = true
      · simp [StartApplication, h, hc]
      · simp [StartApplication, h, hc]
  · intro q
    by_cases h : application.length = 0
    · simp [StartApplication, h]
    · by_cases hc : w.createProcessOk (application ++ ".exe".data) = true
      · simp [StartApplication, h, hc]
      · simp [StartApplication, h, hc]
